import Mathlib

/-!
Verification of the WebE IDE sources against its design specification.

Each Lean definition is a shallow embedding of a Python function of the
repository; side effects (file writes, dialogs, subprocesses) are made
explicit as state records or outcome parameters.
-/

/-! ## Debugger step-control bridge (src/ui/debugger.py) -/

/-- The four boolean step intents held on `DebuggerThread`
(src/ui/debugger.py lines 32-35), set by the UI buttons and polled by
`CustomDebugger.readline`. -/
structure DebugFlags where
  should_continue : Bool
  should_step : Bool
  should_step_in : Bool
  should_step_out : Bool
deriving DecidableEq, Repr

/-- The if/elif chain of one iteration of the loop in
`CustomDebugger.readline` (src/ui/debugger.py lines 104-116): check the
four flags in order, and on the first one set, clear it and return the
command character; if none is set the chain falls through to line 117,
modelled here as `none` (what line 117 then does is `readline` below). -/
def readlinePoll (t : DebugFlags) : Option (Char × DebugFlags) :=
  if t.should_continue then some ('c', { t with should_continue := false })
  else if t.should_step then some ('n', { t with should_step := false })
  else if t.should_step_in then some ('s', { t with should_step_in := false })
  else if t.should_step_out then some ('r', { t with should_step_out := false })
  else none

/-- `CustomDebugger.readline` (src/ui/debugger.py lines 101-117) as a
function of the flag state at entry.  When a flag is set, the first
iteration of the `while True` loop returns its command.  When none is
set, the iteration reaches `self.msleep(100)` at line 117 — but
`CustomDebugger` derives from `pdb.Pdb`, not `QThread` (`msleep` is a
`QThread` method and nothing in the MRO `pdb.Pdb`, `bdb.Bdb`, `cmd.Cmd`,
`object` defines it), so the call raises `AttributeError` and `readline`
aborts; the loop never completes an idle iteration, so no second
iteration and no later flag state is ever observed. -/
def readline (entry : DebugFlags) : Except String (Char × DebugFlags) :=
  match readlinePoll entry with
  | some r => .ok r
  | none => .error "AttributeError: CustomDebugger object has no attribute msleep"

/-- Names for the four step-control flags. -/
inductive FlagKind
  | cont
  | stepOver
  | stepIn
  | stepOut
deriving DecidableEq, Fintype, Repr

/-- Read one named flag of a `DebugFlags` record. -/
def flagGet (t : DebugFlags) : FlagKind → Bool
  | .cont => t.should_continue
  | .stepOver => t.should_step
  | .stepIn => t.should_step_in
  | .stepOut => t.should_step_out

/-- Clear one named flag of a `DebugFlags` record. -/
def clearFlag (t : DebugFlags) : FlagKind → DebugFlags
  | .cont => { t with should_continue := false }
  | .stepOver => { t with should_step := false }
  | .stepIn => { t with should_step_in := false }
  | .stepOut => { t with should_step_out := false }

/-- The single-character command `readline` returns for each flag. -/
def cmdChar : FlagKind → Char
  | .cont => 'c'
  | .stepOver => 'n'
  | .stepIn => 's'
  | .stepOut => 'r'

/-- C1: in every flag state with at least one flag set, `readline`
returns the command character of a flag that is set, clears exactly that
flag, and leaves the other three flags unchanged. -/
theorem readline_returns_set_flag_command (t : DebugFlags)
    (h : t.should_continue = true ∨ t.should_step = true ∨
      t.should_step_in = true ∨ t.should_step_out = true) :
    ∃ f : FlagKind, flagGet t f = true ∧
      readlinePoll t = some (cmdChar f, clearFlag t f) ∧
      flagGet (clearFlag t f) f = false ∧
      ∀ g : FlagKind, g ≠ f → flagGet (clearFlag t f) g = flagGet t g := by
  obtain ⟨a, b, c, d⟩ := t
  revert h
  cases a <;> cases b <;> cases c <;> cases d <;> decide

/-- Witness for C1 at the concrete state where only `should_step_out`
is set. -/
theorem readline_returns_set_flag_command_witness :
    ∃ f : FlagKind,
      flagGet ⟨false, false, false, true⟩ f = true ∧
      readlinePoll ⟨false, false, false, true⟩ =
        some (cmdChar f, clearFlag ⟨false, false, false, true⟩ f) ∧
      flagGet (clearFlag ⟨false, false, false, true⟩ f) f = false ∧
      ∀ g : FlagKind, g ≠ f →
        flagGet (clearFlag ⟨false, false, false, true⟩ f) g =
          flagGet ⟨false, false, false, true⟩ g :=
  readline_returns_set_flag_command ⟨false, false, false, true⟩ (by decide)

/-- C3: the claimed 100ms busy-wait does not exist in the code.
Entering `readline` with all four step-control flags false does not
sleep and poll again: the first idle iteration evaluates
`self.msleep(100)` on a `pdb.Pdb` instance, which has no `msleep`, so
`readline` raises `AttributeError` instead of busy-waiting (the
exception then ends the session through the broad guard in
`DebuggerThread.run`), and no command is ever produced. -/
theorem readline_idle_raises_attribute_error :
    readline ⟨false, false, false, false⟩ =
      .error "AttributeError: CustomDebugger object has no attribute msleep" := rfl

/-! ## Debugger output buffering (src/ui/debugger.py lines 93-99) -/

/-- State of `CustomDebugger` output handling: the `output_buffer` list of
chunks plus the list of strings emitted so far through `output_signal`. -/
structure WriteState where
  output_buffer : List String
  emitted : List String
deriving DecidableEq, Repr

/-- Python `text.endswith('\n')`: the last character of the chunk is a
newline. -/
def endsWithNewline (text : String) : Bool :=
  text.data.getLast? == some '\n'

/-- `CustomDebugger.write` (src/ui/debugger.py lines 93-99): append the
chunk to `output_buffer`; if the chunk ends with a newline, emit the
concatenation of the buffer through `output_signal` and reset the buffer. -/
def write (st : WriteState) (text : String) : WriteState :=
  let buf := st.output_buffer ++ [text]
  if endsWithNewline text then
    { output_buffer := [], emitted := st.emitted ++ [String.join buf] }
  else
    { output_buffer := buf, emitted := st.emitted }

/-- A whole sequence of `write` calls starting from the empty buffer and
no emitted output. -/
def writeAll (chunks : List String) : WriteState :=
  chunks.foldl write ⟨[], []⟩

/-- Counterexample to C2: the chunk "a\nb" delivers a newline, yet
`write` forwards nothing and leaves the text buffered, because the code
tests `text.endswith('\n')`, not whether a newline arrived. -/
theorem write_newline_arrival_not_sufficient :
    '\n' ∈ ("a\nb").data ∧
      write ⟨[], []⟩ "a\nb" = ⟨["a\nb"], []⟩ := by
  constructor
  · decide
  · decide

/-- C2 as amended: each written chunk is appended to the buffer; when the
written chunk ends with a newline, the concatenation of all chunks
buffered since the last forward is emitted as one string and the buffer
is emptied; when it does not end with a newline nothing is forwarded. -/
theorem write_buffers_until_newline_ending_chunk (cs : List String) (t : String) :
    (endsWithNewline t = true →
      writeAll (cs ++ [t]) =
        ⟨[], (writeAll cs).emitted ++ [String.join ((writeAll cs).output_buffer ++ [t])]⟩) ∧
    (endsWithNewline t = false →
      writeAll (cs ++ [t]) = ⟨(writeAll cs).output_buffer ++ [t], (writeAll cs).emitted⟩) := by
  have hfold : writeAll (cs ++ [t]) = write (writeAll cs) t := by
    simp [writeAll, List.foldl_append]
  constructor
  · intro h
    rw [hfold]
    simp [write, h]
  · intro h
    rw [hfold]
    simp [write, h]

/-- Witness for C2 (amended) on concrete chunk sequences: "y\n" flushes
the buffered "x" together with itself; "a" stays buffered. -/
theorem write_buffers_until_newline_ending_chunk_witness :
    writeAll (["x"] ++ ["y\n"]) =
      ⟨[], (writeAll ["x"]).emitted ++
        [String.join ((writeAll ["x"]).output_buffer ++ ["y\n"])]⟩ ∧
    writeAll (["x"] ++ ["a"]) =
      ⟨(writeAll ["x"]).output_buffer ++ ["a"], (writeAll ["x"]).emitted⟩ :=
  ⟨(write_buffers_until_newline_ending_chunk ["x"] "y\n").1 (by decide),
   (write_buffers_until_newline_ending_chunk ["x"] "a").2 (by decide)⟩

/-! ## Code folding (src/editor/editor.py lines 197-277) -/

/-- A text block of the editor document: its text, its `userState` (Qt
initialises it to -1; `toggle_fold` uses 1 for collapsed), and its
visibility. -/
structure Block where
  text : String
  userState : Int
  visible : Bool
deriving DecidableEq, Repr

/-- Python `text.lstrip()` : drop leading whitespace characters. -/
def lstrip (s : String) : String :=
  ⟨s.data.dropWhile Char.isWhitespace⟩

/-- `CodeEditor.get_indent_level` (src/editor/editor.py lines 220-223):
`len(text) - len(text.lstrip())`, the number of leading whitespace
characters of the block text. -/
def get_indent_level (b : Block) : Nat :=
  b.text.length - (lstrip b.text).length

/-- The `while` walk shared by both branches of `toggle_fold`
(src/editor/editor.py lines 206-209 and 215-218): starting from the
successor blocks, set visibility to `v` while the indentation level stays
strictly greater than `level`, and stop at the first block at or below
`level`. -/
def setVisibleWhile (level : Nat) (v : Bool) : List Block → List Block
  | [] => []
  | nb :: rest =>
    if level < get_indent_level nb then
      { nb with visible := v } :: setVisibleWhile level v rest
    else nb :: rest

/-- `CodeEditor.toggle_fold` (src/editor/editor.py lines 197-218) on a
valid block `b` followed by the list `next` of its successor blocks:
if `userState == 1` expand (set `userState` to 0 and show the indented
run), otherwise collapse (set `userState` to 1 and hide the indented
run). -/
def toggle_fold (b : Block) (next : List Block) : Block × List Block :=
  if b.userState == 1 then
    ({ b with userState := 0 }, setVisibleWhile (get_indent_level b) true next)
  else
    ({ b with userState := 1 }, setVisibleWhile (get_indent_level b) false next)

/-- `CodeEditor.can_fold` (src/editor/editor.py lines 270-277): the next
block exists and has strictly greater indentation level. -/
def can_fold (b : Block) (next : List Block) : Bool :=
  match next with
  | [] => false
  | nb :: _ => get_indent_level b < get_indent_level nb

/-- The visibility walk touches exactly the maximal contiguous run of
successors whose indentation is strictly greater than `level`, setting
their visibility to `v`, and leaves every later block unchanged. -/
theorem setVisibleWhile_eq_takeWhile (level : Nat) (v : Bool) (blocks : List Block) :
    setVisibleWhile level v blocks =
      (blocks.takeWhile (fun x => level < get_indent_level x)).map
        (fun x => { x with visible := v }) ++
      blocks.dropWhile (fun x => level < get_indent_level x) := by
  induction blocks with
  | nil => rfl
  | cons nb rest ih =>
    by_cases h : level < get_indent_level nb
    · simp [setVisibleWhile, List.takeWhile_cons, List.dropWhile_cons, h, ih]
    · simp [setVisibleWhile, List.takeWhile_cons, List.dropWhile_cons, h]

/-- C4: for a foldable block `b`, toggling an expanded `b`
(`userState != 1`) sets its `userState` to 1 and hides exactly the
maximal contiguous run of successors whose indentation level is strictly
greater than `b`'s, leaving the rest unchanged; toggling a collapsed `b`
(`userState == 1`) sets `userState` to 0 and makes exactly that run
visible. -/
theorem toggle_fold_hides_and_shows_indented_run (b : Block) (next : List Block)
    (hf : can_fold b next = true) :
    (b.userState ≠ 1 →
      toggle_fold b next =
        ({ b with userState := 1 },
          (next.takeWhile (fun x => get_indent_level b < get_indent_level x)).map
            (fun x => { x with visible := false }) ++
          next.dropWhile (fun x => get_indent_level b < get_indent_level x))) ∧
    (b.userState = 1 →
      toggle_fold b next =
        ({ b with userState := 0 },
          (next.takeWhile (fun x => get_indent_level b < get_indent_level x)).map
            (fun x => { x with visible := true }) ++
          next.dropWhile (fun x => get_indent_level b < get_indent_level x))) := by
  constructor
  · intro h
    have hb : (b.userState == 1) = false := by
      simp [h]
    simp [toggle_fold, hb, setVisibleWhile_eq_takeWhile]
  · intro h
    have hb : (b.userState == 1) = true := by
      simp [h]
    simp [toggle_fold, hb, setVisibleWhile_eq_takeWhile]

/-- Witness for C4: a header block at indentation 0 followed by one
indented block and one block back at indentation 0. -/
theorem toggle_fold_hides_and_shows_indented_run_witness :
    (toggle_fold ⟨"def f():", 0, true⟩ [⟨"    x = 1", 0, true⟩, ⟨"y = 2", 0, true⟩] =
      ({ text := "def f():", userState := 1, visible := true },
        (([⟨"    x = 1", 0, true⟩, ⟨"y = 2", 0, true⟩] :
            List Block).takeWhile
          (fun x => get_indent_level ⟨"def f():", 0, true⟩ < get_indent_level x)).map
            (fun x => { x with visible := false }) ++
        ([⟨"    x = 1", 0, true⟩, ⟨"y = 2", 0, true⟩] :
            List Block).dropWhile
          (fun x => get_indent_level ⟨"def f():", 0, true⟩ < get_indent_level x))) ∧
    (toggle_fold ⟨"def f():", 1, true⟩ [⟨"    x = 1", 0, false⟩, ⟨"y = 2", 0, true⟩] =
      ({ text := "def f():", userState := 0, visible := true },
        (([⟨"    x = 1", 0, false⟩, ⟨"y = 2", 0, true⟩] :
            List Block).takeWhile
          (fun x => get_indent_level ⟨"def f():", 1, true⟩ < get_indent_level x)).map
            (fun x => { x with visible := true }) ++
        ([⟨"    x = 1", 0, false⟩, ⟨"y = 2", 0, true⟩] :
            List Block).dropWhile
          (fun x => get_indent_level ⟨"def f():", 1, true⟩ < get_indent_level x))) :=
  ⟨(toggle_fold_hides_and_shows_indented_run ⟨"def f():", 0, true⟩
      [⟨"    x = 1", 0, true⟩, ⟨"y = 2", 0, true⟩] (by decide)).1 (by decide),
   (toggle_fold_hides_and_shows_indented_run ⟨"def f():", 1, true⟩
      [⟨"    x = 1", 0, false⟩, ⟨"y = 2", 0, true⟩] (by decide)).2 (by decide)⟩

/-! ## Snippet store (src/ui/snippets.py) and project creation dialog
(src/ui/projectmanager.py lines 169-179) -/

/-- A snippet record as stored in snippets.json: name, trigger text
(the "prefix" key of the JSON object; `pfx` here because that word is a
reserved keyword in Lean), and body. -/
structure Snippet where
  name : String
  pfx : String
  body : String
deriving DecidableEq, Repr

/-- `SnippetManager.add_snippet` (src/ui/snippets.py lines 97-105):
append the new record to the store, unconditionally. -/
def add_snippet (snippets : List Snippet) (name pfx body : String) : List Snippet :=
  snippets ++ [⟨name, pfx, body⟩]

/-- `SnippetManager.update_snippet` (src/ui/snippets.py lines 107-115):
replace the record at `index` when `0 <= index < len(snippets)`,
otherwise do nothing. -/
def update_snippet (snippets : List Snippet) (index : Int)
    (name pfx body : String) : List Snippet :=
  if 0 ≤ index ∧ index < snippets.length then
    snippets.set index.toNat ⟨name, pfx, body⟩
  else snippets

/-- `SnippetDialog.add_snippet` (src/ui/snippets.py lines 212-224): if
any of the three fields is empty, show a warning and leave the store
alone; otherwise call `SnippetManager.add_snippet`. -/
def dialog_add_snippet (snippets : List Snippet) (name pfx body : String) : List Snippet :=
  if name = "" ∨ pfx = "" ∨ body = "" then snippets
  else add_snippet snippets name pfx body

/-- `SnippetDialog.update_snippet` (src/ui/snippets.py lines 226-244):
if any of the three fields is empty, show a warning and leave the store
alone; otherwise call `SnippetManager.update_snippet` on the selected
row. -/
def dialog_update_snippet (snippets : List Snippet) (index : Int)
    (name pfx body : String) : List Snippet :=
  if name = "" ∨ pfx = "" ∨ body = "" then snippets
  else update_snippet snippets index name pfx body

/-- `CreateProjectDialog.accept` (src/ui/projectmanager.py lines
169-179): the dialog is accepted only when both the name field and the
path field are non-empty. -/
def create_project_dialog_accept (name path : String) : Bool :=
  if name = "" then false
  else if path = "" then false
  else true

/-- Counterexample to C5: `SnippetManager.add_snippet` itself performs no
validation, so calling it with an empty name puts a snippet with an empty
name into the store. -/
theorem add_snippet_accepts_empty_name :
    ¬ (∀ s ∈ add_snippet [] "" "p" "body", s.name ≠ "") := by
  intro h
  exact h ⟨"", "p", "body"⟩ (by decide) rfl

/-- C5 as amended: name non-emptiness is enforced one layer up, in the
dialogs: `CreateProjectDialog.accept` succeeds only for a non-empty
project name, and the `SnippetDialog` add/update handlers refuse empty
fields before touching the store, so every snippet store maintained
through them keeps all names non-empty; the bare
`SnippetManager.add_snippet`/`update_snippet` validate nothing. -/
theorem dialog_operations_keep_names_nonempty (snippets : List Snippet)
    (name pfx body : String) (index : Int) (path : String)
    (h : ∀ s ∈ snippets, s.name ≠ "") :
    (∀ s ∈ dialog_add_snippet snippets name pfx body, s.name ≠ "") ∧
    (∀ s ∈ dialog_update_snippet snippets index name pfx body, s.name ≠ "") ∧
    (create_project_dialog_accept name path = true → name ≠ "") := by
  refine ⟨?_, ?_, ?_⟩
  · intro s hs
    by_cases hempty : name = "" ∨ pfx = "" ∨ body = ""
    · rw [dialog_add_snippet, if_pos hempty] at hs
      exact h s hs
    · rw [dialog_add_snippet, if_neg hempty] at hs
      push_neg at hempty
      rcases List.mem_append.mp hs with hmem | hnew
      · exact h s hmem
      · have : s = ⟨name, pfx, body⟩ := List.mem_singleton.mp hnew
        rw [this]
        exact hempty.1
  · intro s hs
    by_cases hempty : name = "" ∨ pfx = "" ∨ body = ""
    · rw [dialog_update_snippet, if_pos hempty] at hs
      exact h s hs
    · rw [dialog_update_snippet, if_neg hempty] at hs
      push_neg at hempty
      rw [update_snippet] at hs
      by_cases hidx : 0 ≤ index ∧ index < (snippets.length : Int)
      · rw [if_pos hidx] at hs
        rcases List.mem_or_eq_of_mem_set hs with hmem | hnew
        · exact h s hmem
        · rw [hnew]
          exact hempty.1
      · rw [if_neg hidx] at hs
        exact h s hs
  · intro hacc
    intro hname
    rw [create_project_dialog_accept, if_pos hname] at hacc
    exact Bool.false_ne_true hacc

/-- Witness for C5 (amended) on a concrete one-snippet store. -/
theorem dialog_operations_keep_names_nonempty_witness :
    (∀ s ∈ dialog_add_snippet [⟨"For Loop", "for", "pass"⟩] "n" "p" "b", s.name ≠ "") ∧
    (∀ s ∈ dialog_update_snippet [⟨"For Loop", "for", "pass"⟩] 0 "n" "p" "b", s.name ≠ "") ∧
    (create_project_dialog_accept "n" "/tmp/proj" = true → "n" ≠ "") :=
  dialog_operations_keep_names_nonempty [⟨"For Loop", "for", "pass"⟩]
    "n" "p" "b" 0 "/tmp/proj" (by decide)

/-! ## Project manager (src/ui/projectmanager.py lines 31-74) -/

/-- A project record as persisted in `<name>.webe.json`: exactly the
keys name, path and files. -/
structure Project where
  name : String
  path : String
  files : List String
deriving DecidableEq, Repr

/-- The observable state of `ProjectManager.create_project`: the current
project, the set of directories that exist, and the log of file writes,
each a ((directory, file name), serialised project) pair. -/
structure CreateState where
  current_project : Option Project
  dirs : List String
  written : List ((String × String) × Project)
deriving DecidableEq, Repr

/-- `ProjectManager.create_project` (src/ui/projectmanager.py lines
31-56) after the dialog phase: `accepted` is `none` when the dialog was
rejected and `some (name, path)` when it was accepted with those field
values.  On acceptance it creates the project directory if missing,
writes `<name>.webe.json` inside it with content
`{name, path, files: []}`, sets that record as the current project and
returns it. -/
def create_project (st : CreateState) (accepted : Option (String × String)) :
    CreateState × Option Project :=
  match accepted with
  | none => (st, none)
  | some (project_name, project_path) =>
    let dirs := if project_path ∈ st.dirs then st.dirs else st.dirs ++ [project_path]
    let project_data : Project := ⟨project_name, project_path, []⟩
    ({ current_project := some project_data,
       dirs := dirs,
       written := st.written ++ [((project_path, project_name ++ ".webe.json"), project_data)] },
     some project_data)

/-- C6: given an accepted dialog with `name` and `path`, `create_project`
writes exactly one new file, named `<name>.webe.json`, inside the project
directory `path`, whose content is the record with keys name, path and
files, files being the empty list; it ensures the directory exists, sets
that record as the current project, and returns it. -/
theorem create_project_writes_manifest_and_sets_current
    (st : CreateState) (name path : String) :
    (create_project st (some (name, path))).1.written =
      st.written ++ [((path, name ++ ".webe.json"), ⟨name, path, []⟩)] ∧
    path ∈ (create_project st (some (name, path))).1.dirs ∧
    (create_project st (some (name, path))).1.current_project =
      some ⟨name, path, []⟩ ∧
    (create_project st (some (name, path))).2 = some ⟨name, path, []⟩ := by
  refine ⟨rfl, ?_, rfl, rfl⟩
  by_cases h : path ∈ st.dirs
  · simp [create_project, h]
  · simp [create_project, h]

/-! ## Git command wrapper (src/ui/gitintegration.py lines 31-49) -/

/-- Python truthiness test `not repo_path` for an optional string: true
for `None` and for the empty string. -/
def falsyStr : Option String → Bool
  | none => true
  | some s => s.isEmpty

/-- The outcome of `subprocess.run(command, cwd, shell=True, ...)`:
either the completed process (return code, stdout, stderr) or a raised
exception carrying its text. -/
def SpawnOutcome : Type := Except String (Int × String × String)

/-- `GitManager.run_git_command` (src/ui/gitintegration.py lines 31-49):
fall back to `current_repo` when `repo_path` is falsy; with no repository
at all return `(None, "No repository selected")`; otherwise run the
command and return `(returncode, stdout + stderr)`, or `(1, str(e))` if
launching raised `e`.  The `command` string is consumed only by the
subprocess, whose outcome is the `spawn` parameter. -/
def run_git_command (current_repo : Option String) (command : String)
    (repo_path : Option String) (spawn : SpawnOutcome) : Option Int × String :=
  let rp := if falsyStr repo_path then current_repo else repo_path
  if falsyStr rp then (none, "No repository selected")
  else
    match command, spawn with
    | _, .ok (returncode, stdout, stderr) => (some returncode, stdout ++ stderr)
    | _, .error e => (some 1, e)

/-- C7: for every command string, `run_git_command` returns the pair
(exit code, stdout concatenated with stderr); when neither a repository
path is passed nor one selected it returns `(None, "No repository
selected")` for every possible subprocess outcome, hence without running
any subprocess; and when launching raises, it returns `(1, exception
text)`. -/
theorem run_git_command_result_pair (current_repo : Option String)
    (command : String) (repo_path : Option String) :
    (falsyStr (if falsyStr repo_path then current_repo else repo_path) = true →
      ∀ spawn : SpawnOutcome,
        run_git_command current_repo command repo_path spawn =
          (none, "No repository selected")) ∧
    (falsyStr (if falsyStr repo_path then current_repo else repo_path) = false →
      (∀ returncode stdout stderr,
        run_git_command current_repo command repo_path (.ok (returncode, stdout, stderr)) =
          (some returncode, stdout ++ stderr)) ∧
      (∀ e, run_git_command current_repo command repo_path (.error e) = (some 1, e))) := by
  constructor
  · intro h spawn
    simp [run_git_command, h]
  · intro h
    constructor
    · intro returncode stdout stderr
      simp [run_git_command, h]
    · intro e
      simp [run_git_command, h]

/-- Witness for C7: no repository selected, a successful `git status`,
and a failed launch. -/
theorem run_git_command_result_pair_witness :
    run_git_command none "git status" none (.ok (0, "out", "err")) =
      (none, "No repository selected") ∧
    run_git_command (some "/repo") "git status" none (.ok (0, "out", "err")) =
      (some 0, "out" ++ "err") ∧
    run_git_command (some "/repo") "git status" none (.error "git not found") =
      (some 1, "git not found") :=
  ⟨(run_git_command_result_pair none "git status" none).1 (by decide) (.ok (0, "out", "err")),
   ((run_git_command_result_pair (some "/repo") "git status" none).2 (by decide)).1 0 "out" "err",
   ((run_git_command_result_pair (some "/repo") "git status" none).2 (by decide)).2 "git not found"⟩

/-! ## Opening a project (src/ui/projectmanager.py lines 58-74) -/

/-- The observable outcome of `ProjectManager.open_project`: the current
project afterwards, the returned value, and the warning dialog text if
one was shown.  The parsed JSON value is an arbitrary `α`. -/
structure OpenOutcome (α : Type) where
  current_project : Option α
  retval : Option α
  warning : Option String
deriving DecidableEq, Repr

/-- `ProjectManager.open_project` (src/ui/projectmanager.py lines
58-74): `file_path` is the dialog selection (falsy when cancelled) and
`readParse` the outcome of `open` + `json.load` (`Except.error e` when
any exception `e` was raised).  On success the parsed data becomes the
current project and is returned; on exception a warning with the
exception text is shown and `None` is returned with the current project
untouched. -/
def open_project (α : Type) (current : Option α) (file_path : Option String)
    (readParse : Except String α) : OpenOutcome α :=
  if falsyStr file_path then ⟨current, none, none⟩
  else
    match readParse with
    | .ok project_data => ⟨some project_data, some project_data, none⟩
    | .error e => ⟨current, none, some ("Failed to open project: " ++ e)⟩

/-- C8: with a selected file, `open_project` on any exception shows a
warning whose text is "Failed to open project: " followed by the
exception text, returns `None` and leaves the current project unchanged;
on success it sets the parsed data as the current project and returns
it. -/
theorem open_project_guard (α : Type) (current : Option α)
    (file_path : Option String) (hfp : falsyStr file_path = false) :
    (∀ e, open_project α current file_path (.error e) =
      ⟨current, none, some ("Failed to open project: " ++ e)⟩) ∧
    (∀ project_data, open_project α current file_path (.ok project_data) =
      ⟨some project_data, some project_data, none⟩) := by
  constructor
  · intro e
    simp [open_project, hfp]
  · intro project_data
    simp [open_project, hfp]

/-- Witness for C8 with a concrete current project, selected path,
exception text and parsed record. -/
theorem open_project_guard_witness :
    open_project Project (some ⟨"old", "/old", []⟩)
        (some "/p/demo.webe.json") (.error "No such file") =
      ⟨some ⟨"old", "/old", []⟩, none, some ("Failed to open project: " ++ "No such file")⟩ ∧
    open_project Project (some ⟨"old", "/old", []⟩)
        (some "/p/demo.webe.json") (.ok ⟨"demo", "/p", []⟩) =
      ⟨some ⟨"demo", "/p", []⟩, some ⟨"demo", "/p", []⟩, none⟩ :=
  ⟨(open_project_guard Project (some ⟨"old", "/old", []⟩)
      (some "/p/demo.webe.json") (by decide)).1 "No such file",
   (open_project_guard Project (some ⟨"old", "/old", []⟩)
      (some "/p/demo.webe.json") (by decide)).2 ⟨"demo", "/p", []⟩⟩

/-! ## File statistics (src/ui/statistics.py lines 61-86) -/

/-- Python `line.strip()`: drop whitespace from both ends. -/
def strip (s : String) : String :=
  ⟨((s.data.dropWhile Char.isWhitespace).reverse.dropWhile Char.isWhitespace).reverse⟩

/-- Python `line.startswith('#')` on a stripped line: its first
character is '#'. -/
def startsWithHash (s : String) : Bool :=
  s.data.head? == some '#'

/-- `content.split('\n')` in `analyze_current_file`
(src/ui/statistics.py line 70). -/
def statLines (content : String) : List String :=
  content.splitOn "\n"

/-- "Total Lines" of `analyze_current_file` (src/ui/statistics.py line
75): `len(lines)`. -/
def total_lines (content : String) : Nat :=
  (statLines content).length

/-- "Empty Lines" (line 76): lines whose stripped text is empty. -/
def empty_lines (content : String) : Nat :=
  (statLines content).countP (fun l => strip l == "")

/-- "Code Lines" (line 77): lines whose stripped text is non-empty and
does not start with '#'. -/
def code_lines (content : String) : Nat :=
  (statLines content).countP (fun l => !(strip l == "") && !(startsWithHash (strip l)))

/-- "Comment Lines" (line 78): lines whose stripped text starts with
'#'. -/
def comment_lines (content : String) : Nat :=
  (statLines content).countP (fun l => startsWithHash (strip l))

/-- Each line falls in exactly one of the three classes, so the three
per-line counters sum to the number of lines. -/
theorem countP_line_classes (lines : List String) :
    lines.countP (fun l => strip l == "") +
      lines.countP (fun l => startsWithHash (strip l)) +
      lines.countP (fun l => !(strip l == "") && !(startsWithHash (strip l))) =
    lines.length := by
  induction lines with
  | nil => rfl
  | cons l rest ih =>
    by_cases he : strip l = ""
    · have h2 : startsWithHash "" = false := rfl
      simp [List.countP_cons, he, h2]
      omega
    · by_cases hc : startsWithHash (strip l) = true
      · simp [List.countP_cons, he, hc]
        omega
      · have h2 : startsWithHash (strip l) = false := Bool.eq_false_iff.mpr hc
        simp [List.countP_cons, he, h2]
        omega

/-- C9: the reported line counts partition the lines of the analyzed
content: Empty Lines + Comment Lines + Code Lines = Total Lines, where
the lines are the '\n'-separated segments of the content. -/
theorem statistics_line_counts_partition (content : String) :
    empty_lines content + comment_lines content + code_lines content =
      total_lines content := by
  simpa [empty_lines, comment_lines, code_lines, total_lines] using
    countP_line_classes (statLines content)

/-! ## Project file list maintenance (src/ui/projectmanager.py lines
76-106) -/

/-- The observable state for `add_file_to_project` and
`remove_file_from_project`: the current project and the log of
`json.dump` writes of the project file, each a ((directory, file name),
serialised project) pair. -/
structure FileListState where
  current_project : Option Project
  written : List ((String × String) × Project)
deriving DecidableEq, Repr

/-- `ProjectManager.add_file_to_project` (src/ui/projectmanager.py lines
76-90): with a current project, append `file_path` to its files and
rewrite `<name>.webe.json` only when the path is not yet listed; both
the append and the save sit inside the membership test, so a duplicate
path changes nothing. -/
def add_file_to_project (st : FileListState) (file_path : String) : FileListState :=
  match st.current_project with
  | none => st
  | some proj =>
    if file_path ∈ proj.files then st
    else
      let proj2 : Project := { proj with files := proj.files ++ [file_path] }
      { current_project := some proj2,
        written := st.written ++ [((proj.path, proj.name ++ ".webe.json"), proj2)] }

/-- `ProjectManager.remove_file_from_project` (src/ui/projectmanager.py
lines 92-106): with a current project, remove the first occurrence of
`file_path` (Python `list.remove`) and rewrite the project file only
when the path is listed. -/
def remove_file_from_project (st : FileListState) (file_path : String) : FileListState :=
  match st.current_project with
  | none => st
  | some proj =>
    if file_path ∈ proj.files then
      let proj2 : Project := { proj with files := proj.files.erase file_path }
      { current_project := some proj2,
        written := st.written ++ [((proj.path, proj.name ++ ".webe.json"), proj2)] }
    else st

/-- A sequence of file-list operations on the current project. -/
inductive FileOp
  | addFile (file_path : String)
  | removeFile (file_path : String)
deriving DecidableEq, Repr


/-- Apply a sequence of add/remove operations in order. -/
def applyFileOps (st : FileListState) : List FileOp → FileListState
  | [] => st
  | .addFile fp :: rest => applyFileOps (add_file_to_project st fp) rest
  | .removeFile fp :: rest => applyFileOps (remove_file_from_project st fp) rest

/-- The current project's files list contains no duplicates. -/
def filesNodup (st : FileListState) : Prop :=
  ∀ proj : Project, st.current_project = some proj → proj.files.Nodup

/-- One `add_file_to_project` step preserves duplicate-freeness. -/
theorem add_file_preserves_nodup (st : FileListState) (fp : String)
    (h : filesNodup st) : filesNodup (add_file_to_project st fp) := by
  unfold add_file_to_project
  split
  · exact h
  · next proj heq =>
    split
    · exact h
    · next hmem =>
      intro proj2 hproj2
      have hp : { proj with files := proj.files ++ [fp] } = proj2 :=
        Option.some_inj.mp hproj2
      rw [← hp]
      refine List.nodup_append.mpr ⟨h proj heq, List.nodup_singleton fp, ?_⟩
      intro a ha hb
      rw [List.mem_singleton.mp hb] at ha
      exact hmem ha

/-- One `remove_file_from_project` step preserves duplicate-freeness. -/
theorem remove_file_preserves_nodup (st : FileListState) (fp : String)
    (h : filesNodup st) : filesNodup (remove_file_from_project st fp) := by
  unfold remove_file_from_project
  split
  · exact h
  · next proj heq =>
    split
    · intro proj2 hproj2
      have hp : { proj with files := proj.files.erase fp } = proj2 :=
        Option.some_inj.mp hproj2
      rw [← hp]
      exact (h proj heq).erase fp
    · exact h

/-- C10: `add_file_to_project` is idempotent — with the path already in
the current project's files list, the whole state (in-memory project and
write log, hence the on-disk file) is unchanged — and no sequence of
add/remove operations ever introduces a duplicate into a
duplicate-free files list. -/
theorem add_file_idempotent_and_files_nodup (st : FileListState) :
    (∀ proj fp, st.current_project = some proj → fp ∈ proj.files →
      add_file_to_project st fp = st) ∧
    (∀ ops : List FileOp, filesNodup st → filesNodup (applyFileOps st ops)) := by
  constructor
  · intro proj fp hc hmem
    unfold add_file_to_project
    rw [hc]
    simp [hmem]
  · intro ops
    induction ops generalizing st with
    | nil => exact id
    | cons op rest ih =>
      intro h
      cases op with
      | addFile fp =>
        exact ih (add_file_to_project st fp) (add_file_preserves_nodup st fp h)
      | removeFile fp =>
        exact ih (remove_file_from_project st fp) (remove_file_preserves_nodup st fp h)

/-- Witness for C10 on a concrete project holding files a and b: adding
a again is a no-op, and an add/add/remove sequence keeps the list
duplicate-free. -/
theorem add_file_idempotent_and_files_nodup_witness :
    add_file_to_project ⟨some ⟨"p", "/p", ["a", "b"]⟩, []⟩ "a" =
      ⟨some ⟨"p", "/p", ["a", "b"]⟩, []⟩ ∧
    filesNodup (applyFileOps ⟨some ⟨"p", "/p", ["a", "b"]⟩, []⟩
      [.addFile "a", .addFile "c", .removeFile "b"]) :=
  ⟨(add_file_idempotent_and_files_nodup ⟨some ⟨"p", "/p", ["a", "b"]⟩, []⟩).1
      ⟨"p", "/p", ["a", "b"]⟩ "a" rfl (by decide),
   (add_file_idempotent_and_files_nodup ⟨some ⟨"p", "/p", ["a", "b"]⟩, []⟩).2
      [.addFile "a", .addFile "c", .removeFile "b"]
      (by
        intro proj hproj
        cases Option.some_inj.mp hproj
        decide)⟩
